import Mathlib

/-!
Verification of the ASG instance-replacement lambda
(`src/lambda/main.py`, `src/lambda/autoscaling.py`, `src/lambda/ec2.py`,
`src/lambda/elb.py`) against its natural-language specification.

The cloud collaborator is external: the pre-fetched load-balancer and
target-group health indexes, the group record and its instance summaries are
modelled as a snapshot, and the mutating collaborator calls issued by one
invocation of `replace_old_instances` are reified as a list of `MutatingCall`s in
the order the code issues them.  A Python runtime error aborting the
invocation is reified as the `crashed` flag of `RunResult` (the actions
issued before the error are kept).
-/

/-- One tag of an auto scaling group (key/value, from the `Tags` records). -/
structure Tag where
  key : String
  value : String
deriving DecidableEq, Repr

/-- One suspended scaling process record (the `ProcessName` field is the only
one the code reads). -/
structure SuspendedProcess where
  processName : String
deriving DecidableEq, Repr

/-- One `TargetHealthDescription` as used by `get_instance_status`:
`desc['TargetHealth']['State']` and `desc['TargetHealth']['Reason']`. -/
structure TargetHealthDesc where
  state : String
  reason : String
deriving DecidableEq, Repr

/-- One load-balancer `InstanceState` record as used by `get_instance_status`:
`state['State']` and `state['ReasonCode']`. -/
structure InstanceState where
  state : String
  reasonCode : String
deriving DecidableEq, Repr

/-- One instance summary of the group record.  The Python code reads these
fields with `dict.get`, which yields `None` for an absent key, hence the
`Option` types. -/
structure Instance where
  instanceId : String
  lifecycleState : Option String
  healthStatus : Option String
  launchConfigurationName : Option String
deriving DecidableEq, Repr

/-- A snapshot of one auto scaling group: the group record fields the code
reads, plus the two health indexes that `AutoScalingGroup.instance_health`
and `AutoScalingGroup.target_health` derive from the collaborator
(`{ InstanceId: [record] }` maps, absent id meaning `[]`). -/
structure AutoScalingGroup where
  autoScalingGroupName : String
  maxSize : Nat
  desiredCapacity : Nat
  launchConfigurationName : String
  instances : List Instance
  tags : List Tag
  suspendedProcesses : List SuspendedProcess
  targetHealth : List (String × List TargetHealthDesc)
  instanceHealth : List (String × List InstanceState)
deriving DecidableEq, Repr

/-- `AutoScalingGroup.DISABLED_TAGS`. -/
def DISABLED_TAGS : List String := ["0", "disabled", "false", "no", "off"]

/-- `AutoScalingGroup.SCALING_PROCESSES`. -/
def SCALING_PROCESSES : List String :=
  ["AlarmNotification", "AZRebalance", "Launch", "ScheduledActions"]

/-- `AutoScalingGroup.READY_STATUS`. -/
def READY_STATUS : String := "All:Ready"

/-- `AutoScalingGroup.LAUNCHING_STATUSES`. -/
def LAUNCHING_STATUSES : List String :=
  ["LifecycleState:Pending", "LifecycleState:PendingWait"]

/-- `AutoScalingGroup.TERMINATING_STATUSES`. -/
def TERMINATING_STATUSES : List String :=
  ["HealthStatus:Unhealthy", "LifecycleState:Terminating"]

/-- Python's `'{}'.format(x)` on a value read with `dict.get`: an absent key
prints as `None`. -/
def fmtOpt : Option String → String
  | some s => s
  | none => "None"

/-- Lookup in a `defaultdict(list)`-style health index: the list recorded for
this instance id, `[]` when the id is absent. -/
def lookupHealth {α : Type} (index : List (String × List α)) (instanceId : String) :
    List α :=
  match index.find? (fun p => p.1 == instanceId) with
  | some p => p.2
  | none => []

/-- The target-group part of `get_instance_status`: the for-loop over
`self.target_health[instance_id]` returning at the first non-healthy record. -/
def targetHealthStatus : List TargetHealthDesc → Option String
  | [] => none
  | d :: rest =>
      if d.state != "healthy" then some ("TargetHealth:" ++ d.reason)
      else targetHealthStatus rest

/-- The load-balancer part of `get_instance_status`: the for-loop over
`self.instance_health[instance_id]` returning at the first record whose state
is not `InService`. -/
def instanceHealthStatus : List InstanceState → Option String
  | [] => none
  | s :: rest =>
      if s.state != "InService" then some ("InstanceHealth:" ++ s.reasonCode)
      else instanceHealthStatus rest

/-- `AutoScalingGroup.get_instance_status`. -/
def AutoScalingGroup.get_instance_status (g : AutoScalingGroup) (i : Instance) : String :=
  if i.lifecycleState != some "InService" then
    "LifecycleState:" ++ fmtOpt i.lifecycleState
  else if i.healthStatus != some "Healthy" then
    "HealthStatus:" ++ fmtOpt i.healthStatus
  else
    match targetHealthStatus (lookupHealth g.targetHealth i.instanceId) with
    | some s => s
    | none =>
        match instanceHealthStatus (lookupHealth g.instanceHealth i.instanceId) with
        | some s => s
        | none => READY_STATUS

/-- `InstanceList.new`: the instances whose launch configuration equals the
group's current one.  The filters take the list they refine as an argument
because the code chains them (`asg.instances.new.unready`). -/
def InstanceList.new (g : AutoScalingGroup) (l : List Instance) : List Instance :=
  l.filter (fun i => i.launchConfigurationName == some g.launchConfigurationName)

/-- `InstanceList.old`: the instances whose launch configuration differs from
the group's current one. -/
def InstanceList.old (g : AutoScalingGroup) (l : List Instance) : List Instance :=
  l.filter (fun i => !(i.launchConfigurationName == some g.launchConfigurationName))

/-- `InstanceList.launching`. -/
def InstanceList.launching (g : AutoScalingGroup) (l : List Instance) : List Instance :=
  l.filter (fun i => LAUNCHING_STATUSES.contains (g.get_instance_status i))

/-- `InstanceList.terminating`. -/
def InstanceList.terminating (g : AutoScalingGroup) (l : List Instance) : List Instance :=
  l.filter (fun i => TERMINATING_STATUSES.contains (g.get_instance_status i))

/-- `InstanceList.unready`. -/
def InstanceList.unready (g : AutoScalingGroup) (l : List Instance) : List Instance :=
  l.filter (fun i => !(g.get_instance_status i == READY_STATUS))

/-- Python's `str.lower()` as the code applies it to tag values
(`String.toLower`, written characterwise so that it evaluates). -/
def lowerStr (s : String) : String :=
  String.mk (s.data.map Char.toLower)

/-- The for-loop of `AutoScalingGroup.is_managed`: the first tag with key
`InstanceReplacement` decides; no such tag means unmanaged. -/
def is_managed_tags : List Tag → Bool
  | [] => false
  | t :: rest =>
      if t.key == "InstanceReplacement" then
        !(DISABLED_TAGS.contains (lowerStr t.value))
      else is_managed_tags rest

/-- `AutoScalingGroup.is_managed`. -/
def AutoScalingGroup.is_managed (g : AutoScalingGroup) : Bool :=
  is_managed_tags g.tags

/-- `AutoScalingGroup.is_suspend_processes_required`: old instances exist and
some process of `SCALING_PROCESSES` is not currently suspended. -/
def AutoScalingGroup.is_suspend_processes_required (g : AutoScalingGroup) : Bool :=
  if !(InstanceList.old g g.instances).isEmpty then
    SCALING_PROCESSES.any
      (fun p => !((g.suspendedProcesses.map SuspendedProcess.processName).contains p))
  else false

/-- The request `AutoScalingGroup.resume_processes` sends: `ScalingProcesses`
is included only when the `scaling_processes` argument is truthy (neither
`None` nor the empty list). -/
structure ResumeRequest where
  autoScalingGroupName : String
  scalingProcesses : Option (List String)
deriving DecidableEq, Repr

/-- `AutoScalingGroup.resume_processes`: builds the collaborator request from
the optional `scaling_processes` argument (default `None`). -/
def AutoScalingGroup.resume_processes (g : AutoScalingGroup) (scaling_processes : Option (List String)) :
    ResumeRequest :=
  { autoScalingGroupName := g.autoScalingGroupName
    scalingProcesses :=
      match scaling_processes with
      | some l => if l.isEmpty then none else some l
      | none => none }

/-- One mutating collaborator call issued by `replace_old_instances`, carrying
the argument the code passes. -/
inductive MutatingCall where
  | suspendProcesses
  | terminateInstance (instanceId : String)
  | increaseDesiredCapacity (newDesired : Nat)
  | resumeProcesses (scalingProcesses : Option (List String))
  | setInstanceUnhealthy (instanceId : String)
deriving DecidableEq, Repr

/-- Outcome of one invocation of `replace_old_instances`: the mutating calls
issued in order, and whether the invocation aborted with a Python runtime
error. -/
structure RunResult where
  actions : List MutatingCall
  crashed : Bool
deriving DecidableEq, Repr

/-- The termination-priority ordering of the overshoot branch:
`itertools.chain(terminating, launching, unready, new, instances)`. -/
def overshootChain (g : AutoScalingGroup) : List Instance :=
  InstanceList.terminating g g.instances ++ InstanceList.launching g g.instances ++
    InstanceList.unready g g.instances ++ InstanceList.new g g.instances ++ g.instances

/-- What the overshoot loop body does for one not-yet-seen instance: an
already-`LifecycleState:Terminating` instance is only logged, any other
instance gets a terminate call. -/
def overshootAct (g : AutoScalingGroup) (i : Instance) : List MutatingCall :=
  if g.get_instance_status i == "LifecycleState:Terminating" then []
  else [MutatingCall.terminateInstance i.instanceId]

/-- The overshoot for-loop of `replace_old_instances`: walk the chain, skip
ids already in `terminating_instance_ids`, act on each fresh id, and break
once the set of acted-on ids reaches `terminations_required`. -/
def overshoot_loop (g : AutoScalingGroup) : List Instance → List String → Nat → List MutatingCall
  | [], _, _ => []
  | i :: rest, seen, need =>
      if seen.contains i.instanceId then overshoot_loop g rest seen need
      else
        if seen.length + 1 == need then overshootAct g i
        else overshootAct g i ++ overshoot_loop g rest (seen ++ [i.instanceId]) need

/-- The suspend-processes gate at the top of `replace_old_instances`. -/
def gateActions (g : AutoScalingGroup) : List MutatingCall :=
  if g.is_suspend_processes_required then [MutatingCall.suspendProcesses] else []

/-- The `if`/`elif` chain of `replace_old_instances` after the gate: the first
matching state of the rollout state machine.  In state D with
`asg.instances.old.unready` empty the source assigns the whole `InstanceList`
to `instance` and then evaluates `instance['InstanceId']`, which raises
`TypeError` (a list indexed with a string key); that abort is modelled as
`crashed := true` with no further action issued. -/
def stateMachineStep (g : AutoScalingGroup) : RunResult :=
  if g.instances.length > g.maxSize then
    { actions := overshoot_loop g (overshootChain g) [] (g.instances.length - g.maxSize)
      crashed := false }
  else if g.desiredCapacity < g.maxSize && (InstanceList.new g g.instances).isEmpty then
    { actions := [MutatingCall.increaseDesiredCapacity (g.desiredCapacity + 1)]
      crashed := false }
  else if g.instances.length < g.desiredCapacity then
    { actions := [MutatingCall.resumeProcesses (some ["Launch"])]
      crashed := false }
  else if !(InstanceList.unready g (InstanceList.new g g.instances)).isEmpty ||
      !(InstanceList.terminating g (InstanceList.old g g.instances)).isEmpty then
    { actions := [], crashed := false }
  else if !(InstanceList.old g g.instances).isEmpty then
    match InstanceList.unready g (InstanceList.old g g.instances) with
    | i :: _ =>
        { actions := [MutatingCall.setInstanceUnhealthy i.instanceId]
          crashed := false }
    | [] => { actions := [], crashed := true }
  else if !g.suspendedProcesses.isEmpty then
    { actions := [MutatingCall.resumeProcesses none], crashed := false }
  else { actions := [], crashed := false }

/-- `replace_old_instances` (`src/lambda/main.py`): the suspend-processes gate
followed by the first matching state of the rollout state machine. -/
def replace_old_instances (g : AutoScalingGroup) : RunResult :=
  { actions := gateActions g ++ (stateMachineStep g).actions
    crashed := (stateMachineStep g).crashed }

/-- The per-group body of `lambda_handler`: an unmanaged group is skipped
without any call. -/
def handleGroup (g : AutoScalingGroup) : RunResult :=
  if g.is_managed then replace_old_instances g
  else { actions := [], crashed := false }

/-- The instance ids of the terminate calls among a list of issued actions,
in order. -/
def terminateIds (actions : List MutatingCall) : List String :=
  actions.filterMap
    (fun a => match a with
      | MutatingCall.terminateInstance id => some id
      | _ => none)

/-- Whether a mutating call is the suspend-processes gate. -/
def isSuspendCall : MutatingCall → Bool
  | MutatingCall.suspendProcesses => true
  | _ => false

/-- Whether a mutating call is a terminate call. -/
def isTerminateCall : MutatingCall → Bool
  | MutatingCall.terminateInstance _ => true
  | _ => false

/-- The actions of a run other than the suspend-processes gate. -/
def nonGateActions (r : RunResult) : List MutatingCall :=
  r.actions.filter (fun a => !(isSuspendCall a))

/-- First-occurrence deduplication of instances by id, relative to a set of
ids already seen — the effect of the `terminating_instance_ids` set on the
overshoot walk. -/
def dedupById (seen : List String) : List Instance → List Instance
  | [] => []
  | i :: rest =>
      if seen.contains i.instanceId then dedupById seen rest
      else i :: dedupById (seen ++ [i.instanceId]) rest

/-- `terminations_required` of the overshoot branch. -/
def terminationsRequired (g : AutoScalingGroup) : Nat :=
  g.instances.length - g.maxSize

/-- The distinct instances the overshoot walk processes: the dedup of the
termination-priority ordering, cut at `terminations_required`. -/
def overshootProcessed (g : AutoScalingGroup) : List Instance :=
  (dedupById [] (overshootChain g)).take (terminationsRequired g)

/-! ## Lemmas about the health classifier -/

/-- The target-group for-loop returns the formatted reason of the first
non-healthy record. -/
theorem targetHealthStatus_eq_find (l : List TargetHealthDesc) :
    targetHealthStatus l =
      (l.find? (fun d => d.state != "healthy")).map
        (fun d => "TargetHealth:" ++ d.reason) := by
  induction l with
  | nil => rfl
  | cons d rest ih =>
      by_cases h : d.state = "healthy" <;>
        simp [targetHealthStatus, List.find?_cons, h, ih]

/-- The load-balancer for-loop returns the formatted reason code of the first
record not in service. -/
theorem instanceHealthStatus_eq_find (l : List InstanceState) :
    instanceHealthStatus l =
      (l.find? (fun s => s.state != "InService")).map
        (fun s => "InstanceHealth:" ++ s.reasonCode) := by
  induction l with
  | nil => rfl
  | cons s rest ih =>
      by_cases h : s.state = "InService" <;>
        simp [instanceHealthStatus, List.find?_cons, h, ih]

/-- C4: For every instance and snapshot, the composite status is exactly one
of `LifecycleState:X` (lifecycle state not `InService`), `HealthStatus:X`
(health status not `Healthy`), `TargetHealth:X` (some target-group record
non-healthy), `InstanceHealth:X` (some load-balancer record not in service),
or the `Ready` sentinel, and the first non-passing check in the fixed order
lifecycle state, health status, target-group health, load-balancer health
determines the result. -/
theorem composite_status_cases (g : AutoScalingGroup) (i : Instance) :
    (i.lifecycleState ≠ some "InService" ∧
      g.get_instance_status i = "LifecycleState:" ++ fmtOpt i.lifecycleState)
  ∨ (i.lifecycleState = some "InService" ∧ i.healthStatus ≠ some "Healthy" ∧
      g.get_instance_status i = "HealthStatus:" ++ fmtOpt i.healthStatus)
  ∨ (i.lifecycleState = some "InService" ∧ i.healthStatus = some "Healthy" ∧
      ∃ d, (lookupHealth g.targetHealth i.instanceId).find?
          (fun d => d.state != "healthy") = some d ∧
        g.get_instance_status i = "TargetHealth:" ++ d.reason)
  ∨ (i.lifecycleState = some "InService" ∧ i.healthStatus = some "Healthy" ∧
      (lookupHealth g.targetHealth i.instanceId).find?
          (fun d => d.state != "healthy") = none ∧
      ∃ s, (lookupHealth g.instanceHealth i.instanceId).find?
          (fun s => s.state != "InService") = some s ∧
        g.get_instance_status i = "InstanceHealth:" ++ s.reasonCode)
  ∨ (i.lifecycleState = some "InService" ∧ i.healthStatus = some "Healthy" ∧
      (lookupHealth g.targetHealth i.instanceId).find?
          (fun d => d.state != "healthy") = none ∧
      (lookupHealth g.instanceHealth i.instanceId).find?
          (fun s => s.state != "InService") = none ∧
      g.get_instance_status i = READY_STATUS) := by
  by_cases h1 : i.lifecycleState = some "InService"
  · by_cases h2 : i.healthStatus = some "Healthy"
    · cases hT : (lookupHealth g.targetHealth i.instanceId).find?
          (fun d => d.state != "healthy") with
      | some d =>
          refine Or.inr (Or.inr (Or.inl ⟨h1, h2, d, rfl, ?_⟩))
          simp [AutoScalingGroup.get_instance_status, h1, h2,
            targetHealthStatus_eq_find, hT]
      | none =>
          cases hI : (lookupHealth g.instanceHealth i.instanceId).find?
              (fun s => s.state != "InService") with
          | some s =>
              refine Or.inr (Or.inr (Or.inr (Or.inl ⟨h1, h2, rfl, s, rfl, ?_⟩)))
              simp [AutoScalingGroup.get_instance_status, h1, h2,
                targetHealthStatus_eq_find, instanceHealthStatus_eq_find, hT, hI]
          | none =>
              refine Or.inr (Or.inr (Or.inr (Or.inr ⟨h1, h2, rfl, rfl, ?_⟩)))
              simp [AutoScalingGroup.get_instance_status, h1, h2,
                targetHealthStatus_eq_find, instanceHealthStatus_eq_find, hT, hI]
    · refine Or.inr (Or.inl ⟨h1, h2, ?_⟩)
      simp [AutoScalingGroup.get_instance_status, h1, h2]
  · refine Or.inl ⟨h1, ?_⟩
    simp [AutoScalingGroup.get_instance_status, h1]

/-! ## Old/new partition -/

/-- C7: For any instance list and launch-configuration identity, `new` and
`old` partition the list: each is a sublist (iteration order preserved), every
occurrence of an instance is counted exactly once between the two, and
membership is decided by whether the instance's launch configuration equals
the group's current one. -/
theorem old_new_partition (g : AutoScalingGroup) (l : List Instance) :
    (InstanceList.new g l).Sublist l ∧ (InstanceList.old g l).Sublist l
  ∧ (∀ i : Instance,
      (InstanceList.new g l).count i + (InstanceList.old g l).count i = l.count i)
  ∧ (∀ i : Instance, i ∈ InstanceList.new g l ↔
      i ∈ l ∧ i.launchConfigurationName = some g.launchConfigurationName)
  ∧ (∀ i : Instance, i ∈ InstanceList.old g l ↔
      i ∈ l ∧ i.launchConfigurationName ≠ some g.launchConfigurationName) := by
  refine ⟨List.filter_sublist l, List.filter_sublist l, ?_, ?_, ?_⟩
  · intro i
    induction l with
    | nil => simp [InstanceList.new, InstanceList.old]
    | cons a t ih =>
        by_cases h : a.launchConfigurationName = some g.launchConfigurationName <;>
          by_cases hai : a = i <;>
            simp_all [InstanceList.new, InstanceList.old, List.filter_cons,
              List.count_cons]
  · intro i
    simp [InstanceList.new, List.mem_filter]
  · intro i
    simp [InstanceList.old, List.mem_filter]

/-! ## Resume-processes request building -/

/-- C10: Calling `resume_processes` with an empty list of process names builds
the same resume-all request as calling it with no names at all: Python
truthiness drops an empty `ScalingProcesses` argument. -/
theorem resume_processes_empty_list_is_resume_all (g : AutoScalingGroup) :
    g.resume_processes (some []) = g.resume_processes none := rfl

/-! ## Filter chains -/

/-- The five filters of `InstanceList`, as a name so that arbitrary chains of
them can be quantified over. -/
inductive FilterKind where
  | newFilter
  | oldFilter
  | launchingFilter
  | terminatingFilter
  | unreadyFilter
deriving DecidableEq, Repr

/-- The per-instance classification each filter selects on. -/
def FilterKind.pred (g : AutoScalingGroup) : FilterKind → Instance → Bool
  | FilterKind.newFilter => fun i =>
      i.launchConfigurationName == some g.launchConfigurationName
  | FilterKind.oldFilter => fun i =>
      !(i.launchConfigurationName == some g.launchConfigurationName)
  | FilterKind.launchingFilter => fun i =>
      LAUNCHING_STATUSES.contains (g.get_instance_status i)
  | FilterKind.terminatingFilter => fun i =>
      TERMINATING_STATUSES.contains (g.get_instance_status i)
  | FilterKind.unreadyFilter => fun i =>
      !(g.get_instance_status i == READY_STATUS)

/-- Filter application (the corresponding `InstanceList` property). -/
def FilterKind.applyTo (g : AutoScalingGroup) :
    FilterKind → List Instance → List Instance
  | FilterKind.newFilter => InstanceList.new g
  | FilterKind.oldFilter => InstanceList.old g
  | FilterKind.launchingFilter => InstanceList.launching g
  | FilterKind.terminatingFilter => InstanceList.terminating g
  | FilterKind.unreadyFilter => InstanceList.unready g

/-- A chain of filters applied left to right, as the code chains the
`InstanceList` properties (`asg.instances.new.unready`). -/
def applyChain (g : AutoScalingGroup) (ks : List FilterKind) (l : List Instance) :
    List Instance :=
  ks.foldl (fun acc k => FilterKind.applyTo g k acc) l

theorem applyTo_eq_filter (g : AutoScalingGroup) (k : FilterKind) (l : List Instance) :
    FilterKind.applyTo g k l = l.filter (FilterKind.pred g k) := by
  cases k <;> rfl

/-- C9: Chaining filters equals intersecting their predicates: any filter
chain applied to a list yields exactly the instances satisfying every
predicate of the chain, in the original iteration order.  In particular the
`new.unready` chain yields exactly the instances both new and unready. -/
theorem filter_chain_is_intersection (g : AutoScalingGroup) (ks : List FilterKind)
    (l : List Instance) :
    applyChain g ks l = l.filter (fun i => ks.all (fun k => FilterKind.pred g k i)) := by
  induction ks generalizing l with
  | nil => simp [applyChain]
  | cons k ks ih =>
      have hstep : applyChain g (k :: ks) l = applyChain g ks (FilterKind.applyTo g k l) :=
        rfl
      rw [hstep, ih, applyTo_eq_filter, List.filter_filter]
      refine List.filter_congr ?_
      intro i _
      simp [Bool.and_comm]

/-! ## The overshoot loop -/

theorem mem_overshootAct_terminate (g : AutoScalingGroup) (i : Instance) :
    ∀ a ∈ overshootAct g i, isTerminateCall a = true := by
  intro a ha
  unfold overshootAct at ha
  split at ha
  · simp at ha
  · simp at ha
    subst ha
    rfl

theorem overshoot_loop_all_terminate (g : AutoScalingGroup) (chain : List Instance) :
    ∀ seen need, ∀ a ∈ overshoot_loop g chain seen need, isTerminateCall a = true := by
  induction chain with
  | nil => intro seen need a ha; simp [overshoot_loop] at ha
  | cons i rest ih =>
      intro seen need a ha
      rw [overshoot_loop] at ha
      by_cases hseen : seen.contains i.instanceId
      · simp only [hseen, if_true] at ha
        exact ih seen need a ha
      · simp only [hseen] at ha
        by_cases hlen : seen.length + 1 == need
        · simp only [hlen, if_true] at ha
          exact mem_overshootAct_terminate g i a ha
        · rw [if_neg (by simp_all), if_neg (by simp_all), List.mem_append] at ha
          rcases ha with ha | ha
          · exact mem_overshootAct_terminate g i a ha
          · exact ih _ need a ha

theorem nonGateActions_replace (g : AutoScalingGroup) :
    nonGateActions (replace_old_instances g) =
      (stateMachineStep g).actions.filter (fun a => !(isSuspendCall a)) := by
  unfold nonGateActions replace_old_instances gateActions
  split <;> simp [isSuspendCall]

/-- C3 (amended): Aside from the suspend-processes gate, one invocation issues
either terminate calls only (the overshoot branch, possibly several), or at
most one mutating collaborator call (desired-capacity update, resume,
set-unhealthy, or resume-all). -/
theorem at_most_one_mutation_besides_terminations (g : AutoScalingGroup) :
    (∀ a ∈ nonGateActions (replace_old_instances g), isTerminateCall a = true)
    ∨ (nonGateActions (replace_old_instances g)).length ≤ 1 := by
  rw [nonGateActions_replace]
  unfold stateMachineStep
  split
  · left
    intro a ha
    rw [List.mem_filter] at ha
    exact overshoot_loop_all_terminate g _ _ _ a ha.1
  · right
    split
    · simp [isSuspendCall]
    · split
      · simp [isSuspendCall]
      · split
        · simp
        · split
          · split
            · simp [isSuspendCall]
            · simp
          · split
            · simp [isSuspendCall]
            · simp

/-- A healthy in-service instance summary (helper for concrete snapshots). -/
def mkInst (id lc ls hs : String) : Instance :=
  { instanceId := id, lifecycleState := some ls, healthStatus := some hs,
    launchConfigurationName := some lc }

/-- A managed group at max size 3 with five ready instances: the overshoot
branch issues two terminate calls in one invocation. -/
def cexOvershootTwo : AutoScalingGroup :=
  { autoScalingGroupName := "g", maxSize := 3, desiredCapacity := 3,
    launchConfigurationName := "lc2",
    instances := [mkInst "i1" "lc2" "InService" "Healthy",
                  mkInst "i2" "lc2" "InService" "Healthy",
                  mkInst "i3" "lc2" "InService" "Healthy",
                  mkInst "i4" "lc2" "InService" "Healthy",
                  mkInst "i5" "lc2" "InService" "Healthy"],
    tags := [{ key := "InstanceReplacement", value := "" }],
    suspendedProcesses := [], targetHealth := [], instanceHealth := [] }

/-- C3 counterexample: a managed snapshot whose invocation issues two
non-gate mutating calls (two terminations), refuting "at most one mutating
call aside from the suspend-processes gate". -/
theorem two_nongate_mutations_exist :
    cexOvershootTwo.is_managed = true ∧
    nonGateActions (replace_old_instances cexOvershootTwo) =
      [MutatingCall.terminateInstance "i1", MutatingCall.terminateInstance "i2"] ∧
    ¬ ((nonGateActions (replace_old_instances cexOvershootTwo)).length ≤ 1) := by
  refine ⟨by decide, by decide, by decide⟩

/-! ## The managed tag -/

theorem is_managed_tags_iff (tags : List Tag)
    (h : (tags.filter (fun t => t.key == "InstanceReplacement")).length ≤ 1) :
    is_managed_tags tags = true ↔
      ∃ t ∈ tags, t.key = "InstanceReplacement" ∧ lowerStr t.value ∉ DISABLED_TAGS := by
  induction tags with
  | nil => simp [is_managed_tags]
  | cons t rest ih =>
      by_cases hk : t.key = "InstanceReplacement"
      · have hfilter : rest.filter (fun u => u.key == "InstanceReplacement") = [] := by
          rw [List.filter_cons, if_pos (by simp [hk]), List.length_cons] at h
          exact List.eq_nil_of_length_eq_zero (by omega)
        constructor
        · intro hm
          refine ⟨t, List.mem_cons_self t rest, hk, ?_⟩
          rw [is_managed_tags, if_pos (by simp [hk])] at hm
          simpa using hm
        · rintro ⟨u, hu, hku, hval⟩
          rw [is_managed_tags, if_pos (by simp [hk])]
          rcases List.mem_cons.mp hu with rfl | humem
          · simpa using hval
          · exfalso
            have humemf : u ∈ rest.filter (fun v => v.key == "InstanceReplacement") := by
              rw [List.mem_filter]
              exact ⟨humem, by simp [hku]⟩
            rw [hfilter] at humemf
            exact List.not_mem_nil u humemf
      · rw [is_managed_tags, if_neg (by simp [hk])]
        have hrest : (rest.filter (fun u => u.key == "InstanceReplacement")).length ≤ 1 := by
          rwa [List.filter_cons, if_neg (by simp [hk])] at h
        rw [ih hrest]
        constructor
        · rintro ⟨u, hu, hku, hval⟩
          exact ⟨u, List.mem_cons_of_mem _ hu, hku, hval⟩
        · rintro ⟨u, hu, hku, hval⟩
          rcases List.mem_cons.mp hu with rfl | humem
          · exact absurd hku hk
          · exact ⟨u, humem, hku, hval⟩

/-- C8: A group with at most one `InstanceReplacement` tag (AWS tag keys are
unique per resource) is managed iff it carries such a tag whose lowercased
value is not a disabling token; an unmanaged group is skipped by the handler
with no mutation issued. -/
theorem managed_iff_tag (g : AutoScalingGroup)
    (h : (g.tags.filter (fun t => t.key == "InstanceReplacement")).length ≤ 1) :
    (g.is_managed = true ↔
      ∃ t ∈ g.tags, t.key = "InstanceReplacement" ∧ lowerStr t.value ∉ DISABLED_TAGS)
    ∧ (g.is_managed = false →
        handleGroup g = { actions := [], crashed := false }) := by
  constructor
  · exact is_managed_tags_iff g.tags h
  · intro hm
    simp [handleGroup, hm]

/-- A small managed group with a single enabling tag, for the witness. -/
def taggedGroup : AutoScalingGroup :=
  { autoScalingGroupName := "g", maxSize := 1, desiredCapacity := 1,
    launchConfigurationName := "lc", instances := [],
    tags := [{ key := "InstanceReplacement", value := "Yes" }],
    suspendedProcesses := [], targetHealth := [], instanceHealth := [] }

theorem managed_iff_tag_witness :
    ((taggedGroup.tags.filter (fun t => t.key == "InstanceReplacement")).length ≤ 1)
    ∧ ((taggedGroup.is_managed = true ↔
        ∃ t ∈ taggedGroup.tags, t.key = "InstanceReplacement" ∧
          lowerStr t.value ∉ DISABLED_TAGS)
      ∧ (taggedGroup.is_managed = false →
          handleGroup taggedGroup = { actions := [], crashed := false })) :=
  ⟨by decide, managed_iff_tag taggedGroup (by decide)⟩

theorem overshoot_loop_eq_dedup (g : AutoScalingGroup) (chain : List Instance) :
    ∀ (seen : List String) (need : Nat), seen.length < need →
      overshoot_loop g chain seen need =
        ((dedupById seen chain).take (need - seen.length)).flatMap (overshootAct g) := by
  induction chain with
  | nil =>
      intro seen need _
      simp [overshoot_loop, dedupById]
  | cons i rest ih =>
      intro seen need hlt
      rw [overshoot_loop, dedupById]
      by_cases hseen : seen.contains i.instanceId
      · rw [if_pos hseen, if_pos hseen]
        exact ih seen need hlt
      · rw [if_neg hseen, if_neg hseen]
        by_cases hlen : seen.length + 1 = need
        · rw [if_pos (by simp [hlen])]
          have h1 : need - seen.length = 1 := by omega
          rw [h1, List.take_cons (by omega)]
          simp
        · rw [if_neg (by simp [hlen])]
          have h2 : 0 < need - seen.length := by omega
          rw [List.take_cons h2, List.flatMap_cons]
          congr 1
          have hrec := ih (seen ++ [i.instanceId]) need (by simp; omega)
          simpa using hrec

theorem terminateIds_flatMap_overshootAct (g : AutoScalingGroup) (P : List Instance) :
    terminateIds (P.flatMap (overshootAct g)) =
      (P.filter (fun i =>
        !(g.get_instance_status i == "LifecycleState:Terminating"))).map
        Instance.instanceId := by
  induction P with
  | nil => rfl
  | cons i rest ih =>
      rw [List.flatMap_cons, terminateIds, List.filterMap_append, List.filter_cons]
      by_cases hterm : g.get_instance_status i == "LifecycleState:Terminating"
      · rw [if_neg (by simp [hterm])]
        have hact : overshootAct g i = [] := by
          unfold overshootAct
          rw [if_pos hterm]
        rw [hact]
        simpa [terminateIds] using ih
      · rw [if_pos (by simp [hterm])]
        have hact : overshootAct g i = [MutatingCall.terminateInstance i.instanceId] := by
          unfold overshootAct
          rw [if_neg hterm]
        rw [hact, List.map_cons]
        have hsingle :
            List.filterMap (fun a => match a with
              | MutatingCall.terminateInstance id => some id
              | _ => none) [MutatingCall.terminateInstance i.instanceId]
              = [i.instanceId] := rfl
        rw [hsingle]
        simpa [terminateIds] using congrArg (List.cons i.instanceId) ih

theorem dedupById_ids_spec (chain : List Instance) :
    ∀ seen : List String,
      ((dedupById seen chain).map Instance.instanceId).Nodup ∧
      (∀ x, x ∈ (dedupById seen chain).map Instance.instanceId ↔
          x ∈ chain.map Instance.instanceId ∧ x ∉ seen) := by
  induction chain with
  | nil => intro seen; simp [dedupById]
  | cons i rest ih =>
      intro seen
      rw [dedupById]
      by_cases hseen : seen.contains i.instanceId
      · rw [if_pos hseen]
        have hmemseen : i.instanceId ∈ seen := List.elem_iff.mp hseen
        obtain ⟨hnd, hmem⟩ := ih seen
        refine ⟨hnd, ?_⟩
        intro x
        rw [hmem, List.map_cons, List.mem_cons]
        constructor
        · rintro ⟨hx, hns⟩
          exact ⟨Or.inr hx, hns⟩
        · rintro ⟨hx | hx, hns⟩
          · exact absurd (hx ▸ hmemseen) hns
          · exact ⟨hx, hns⟩
      · rw [if_neg hseen]
        have hnotseen : i.instanceId ∉ seen := fun hc => hseen (List.elem_iff.mpr hc)
        obtain ⟨hnd, hmem⟩ := ih (seen ++ [i.instanceId])
        constructor
        · rw [List.map_cons, List.nodup_cons]
          refine ⟨?_, hnd⟩
          intro hbad
          rw [hmem] at hbad
          exact hbad.2 (by simp)
        · intro x
          rw [List.map_cons, List.mem_cons, hmem, List.map_cons, List.mem_cons]
          constructor
          · rintro (rfl | ⟨hx, hns⟩)
            · exact ⟨Or.inl rfl, hnotseen⟩
            · rw [List.mem_append] at hns
              exact ⟨Or.inr hx, fun hc => hns (Or.inl hc)⟩
          · rintro ⟨hx | hx, hns⟩
            · exact Or.inl hx
            · by_cases hxi : x = i.instanceId
              · exact Or.inl hxi
              · refine Or.inr ⟨hx, ?_⟩
                rw [List.mem_append]
                rintro (hc | hc)
                · exact hns hc
                · simp at hc
                  exact hxi hc

theorem terminateIds_replace (g : AutoScalingGroup) :
    terminateIds (replace_old_instances g).actions =
      terminateIds (stateMachineStep g).actions := by
  unfold replace_old_instances gateActions terminateIds
  split <;> simp

theorem stateMachineStep_overshoot (g : AutoScalingGroup)
    (h1 : g.maxSize < g.instances.length) :
    stateMachineStep g =
      { actions :=
          overshoot_loop g (overshootChain g) [] (g.instances.length - g.maxSize)
        crashed := false } := by
  unfold stateMachineStep
  rw [if_pos h1]

theorem terminateIds_overshoot (g : AutoScalingGroup)
    (h1 : g.maxSize < g.instances.length) :
    terminateIds (replace_old_instances g).actions =
      ((overshootProcessed g).filter
        (fun i => !(g.get_instance_status i == "LifecycleState:Terminating"))).map
        Instance.instanceId := by
  rw [terminateIds_replace, stateMachineStep_overshoot g h1]
  have hloop := overshoot_loop_eq_dedup g (overshootChain g) [] (g.instances.length - g.maxSize) (by simp; omega)
  simp only [Nat.sub_zero, List.length_nil] at hloop
  rw [hloop, terminateIds_flatMap_overshootAct]
  rfl

theorem overshootProcessed_length (g : AutoScalingGroup)
    (h1 : g.maxSize < g.instances.length)
    (h2 : (g.instances.map Instance.instanceId).Nodup) :
    (overshootProcessed g).length = g.instances.length - g.maxSize := by
  unfold overshootProcessed terminationsRequired
  rw [List.length_take]
  have hsub : g.instances.map Instance.instanceId ⊆
      (dedupById [] (overshootChain g)).map Instance.instanceId := by
    intro x hx
    obtain ⟨_, hmem⟩ := dedupById_ids_spec (overshootChain g) []
    rw [hmem x]
    refine ⟨?_, by simp⟩
    unfold overshootChain
    simp only [List.map_append, List.mem_append]
    tauto
  have hlen : g.instances.length ≤ (dedupById [] (overshootChain g)).length := by
    have hle := (h2.subperm hsub).length_le
    simpa using hle
  rw [inf_eq_left.mpr (by omega)]

/-- C2 (amended): Given instance count > max size and distinct instance ids,
the walk of the termination-priority ordering (already-terminating, then
launching, then unready, then new, then all instances, deduplicated by id)
selects exactly `count − max` distinct instances; a terminate call is issued
for each selected instance not already in `LifecycleState:Terminating` (the
already-terminating ones are only awaited), no instance id receives two
terminate calls, and the terminate calls plus the awaited already-terminating
selections number exactly `count − max`. -/
theorem overshoot_termination_calls (g : AutoScalingGroup)
    (h1 : g.maxSize < g.instances.length)
    (h2 : (g.instances.map Instance.instanceId).Nodup) :
    terminateIds (replace_old_instances g).actions =
      ((overshootProcessed g).filter
        (fun i => !(g.get_instance_status i == "LifecycleState:Terminating"))).map
        Instance.instanceId
    ∧ (terminateIds (replace_old_instances g).actions).Nodup
    ∧ (terminateIds (replace_old_instances g).actions).length +
        ((overshootProcessed g).filter
          (fun i => g.get_instance_status i == "LifecycleState:Terminating")).length
        = g.instances.length - g.maxSize := by
  have hids := terminateIds_overshoot g h1
  refine ⟨hids, ?_, ?_⟩
  · rw [hids]
    have hDnodup := (dedupById_ids_spec (overshootChain g) []).1
    have hsub :
        (((overshootProcessed g).filter
          (fun i => !(g.get_instance_status i == "LifecycleState:Terminating"))).map
          Instance.instanceId).Sublist
        ((dedupById [] (overshootChain g)).map Instance.instanceId) := by
      refine List.Sublist.map Instance.instanceId ?_
      exact (List.filter_sublist _).trans (List.take_sublist _ _)
    exact hsub.nodup hDnodup
  · rw [hids, List.length_map]
    have hsplit :=
      List.length_eq_length_filter_add
        (l := overshootProcessed g)
        (fun i => g.get_instance_status i == "LifecycleState:Terminating")
    have hplen := overshootProcessed_length g h1 h2
    omega

/-- C2 witness input is `cexOvershootTwo` (five ready instances, max 3). -/
theorem overshoot_termination_calls_witness :
    (cexOvershootTwo.maxSize < cexOvershootTwo.instances.length
      ∧ (cexOvershootTwo.instances.map Instance.instanceId).Nodup)
    ∧ (terminateIds (replace_old_instances cexOvershootTwo).actions =
        ((overshootProcessed cexOvershootTwo).filter
          (fun i => !(cexOvershootTwo.get_instance_status i ==
            "LifecycleState:Terminating"))).map Instance.instanceId
      ∧ (terminateIds (replace_old_instances cexOvershootTwo).actions).Nodup
      ∧ (terminateIds (replace_old_instances cexOvershootTwo).actions).length +
          ((overshootProcessed cexOvershootTwo).filter
            (fun i => cexOvershootTwo.get_instance_status i ==
              "LifecycleState:Terminating")).length
          = cexOvershootTwo.instances.length - cexOvershootTwo.maxSize) :=
  ⟨⟨by decide, by decide⟩,
    overshoot_termination_calls cexOvershootTwo (by decide) (by decide)⟩

/-! ## Already-terminating instances and the overshoot count -/

/-- Scenario D of the spec: four instances at max size 3, one of them already
`LifecycleState:Terminating`, the rest ready. -/
def cexScenD : AutoScalingGroup :=
  { autoScalingGroupName := "g", maxSize := 3, desiredCapacity := 3,
    launchConfigurationName := "lc2",
    instances := [mkInst "i1" "lc2" "InService" "Healthy",
                  mkInst "i2" "lc2" "Terminating" "Healthy",
                  mkInst "i3" "lc2" "InService" "Healthy",
                  mkInst "i4" "lc2" "InService" "Healthy"],
    tags := [{ key := "InstanceReplacement", value := "" }],
    suspendedProcesses := [], targetHealth := [], instanceHealth := [] }

/-- C2 counterexample: a managed snapshot with `count − max = 1` whose
invocation issues zero terminate calls (the overshoot is absorbed by the
already-terminating instance), refuting "terminate calls = count − max". -/
theorem terminate_calls_below_count_minus_max :
    cexScenD.is_managed = true
    ∧ cexScenD.instances.length - cexScenD.maxSize = 1
    ∧ terminateIds (replace_old_instances cexScenD).actions = [] := by
  refine ⟨by decide, by decide, by decide⟩

/-- C6 (amended): With instance count 4, max size 3, exactly one instance of
composite status `LifecycleState:Terminating` and none of status
`HealthStatus:Unhealthy`, the invocation issues zero terminate calls: the
already-terminating instance heads the termination-priority ordering and
satisfies the required count alone. -/
theorem zero_terminates_when_one_already_terminating (g : AutoScalingGroup)
    (hc : g.instances.length = 4) (hm : g.maxSize = 3)
    (hterm : (g.instances.filter
      (fun i => g.get_instance_status i == "LifecycleState:Terminating")).length = 1)
    (hunh : (g.instances.filter
      (fun i => g.get_instance_status i == "HealthStatus:Unhealthy")).length = 0) :
    terminateIds (replace_old_instances g).actions = [] := by
  have h1 : g.maxSize < g.instances.length := by omega
  rw [terminateIds_overshoot g h1]
  have hHU : g.instances.filter
      (fun i => g.get_instance_status i == "HealthStatus:Unhealthy") = [] :=
    List.eq_nil_of_length_eq_zero hunh
  have hnoHU : ∀ i ∈ g.instances,
      (g.get_instance_status i == "HealthStatus:Unhealthy") = false := by
    intro i hi
    have hni := List.filter_eq_nil_iff.mp hHU i hi
    simpa using hni
  have hT2 : InstanceList.terminating g g.instances =
      g.instances.filter
        (fun i => g.get_instance_status i == "LifecycleState:Terminating") := by
    unfold InstanceList.terminating
    refine List.filter_congr ?_
    intro i hi
    rw [TERMINATING_STATUSES, List.contains_cons, List.contains_cons, hnoHU i hi]
    simp
  obtain ⟨t, ht⟩ := List.length_eq_one.mp hterm
  have htmem : t ∈ g.instances.filter
      (fun i => g.get_instance_status i == "LifecycleState:Terminating") := by
    rw [ht]
    exact List.mem_cons_self t []
  have hstatus : (g.get_instance_status t == "LifecycleState:Terminating") = true :=
    (List.mem_filter.mp htmem).2
  have hchainEq : overshootChain g =
      t :: (InstanceList.launching g g.instances ++ InstanceList.unready g g.instances
        ++ InstanceList.new g g.instances ++ g.instances) := by
    unfold overshootChain
    rw [hT2, ht]
    simp [List.append_assoc]
  have hP : overshootProcessed g = [t] := by
    unfold overshootProcessed terminationsRequired
    rw [hc, hm, hchainEq, dedupById, if_neg (by simp), List.take_cons (by omega)]
    simp
  rw [hP, List.filter_cons, if_neg (by simp [hstatus])]
  rfl

theorem zero_terminates_witness :
    (cexScenD.instances.length = 4 ∧ cexScenD.maxSize = 3
      ∧ (cexScenD.instances.filter (fun i =>
          cexScenD.get_instance_status i == "LifecycleState:Terminating")).length = 1
      ∧ (cexScenD.instances.filter (fun i =>
          cexScenD.get_instance_status i == "HealthStatus:Unhealthy")).length = 0)
    ∧ terminateIds (replace_old_instances cexScenD).actions = [] :=
  ⟨⟨by decide, by decide, by decide, by decide⟩,
    zero_terminates_when_one_already_terminating cexScenD
      (by decide) (by decide) (by decide) (by decide)⟩

/-- Scenario D with an additional `HealthStatus:Unhealthy` instance placed
before the terminating one in iteration order. -/
def cexC6unhealthy : AutoScalingGroup :=
  { autoScalingGroupName := "g", maxSize := 3, desiredCapacity := 3,
    launchConfigurationName := "lc2",
    instances := [mkInst "i1" "lc2" "InService" "Unhealthy",
                  mkInst "i2" "lc2" "Terminating" "Healthy",
                  mkInst "i3" "lc2" "InService" "Healthy",
                  mkInst "i4" "lc2" "InService" "Healthy"],
    tags := [{ key := "InstanceReplacement", value := "" }],
    suspendedProcesses := [], targetHealth := [], instanceHealth := [] }

/-- C6 counterexample: a managed snapshot with count 4, max 3 and exactly one
instance of composite status `LifecycleState:Terminating` in which one
terminate call is nevertheless issued (an `HealthStatus:Unhealthy` instance
precedes the terminating one in the walk), refuting "zero terminate calls". -/
theorem one_terminate_though_one_already_terminating :
    cexC6unhealthy.is_managed = true
    ∧ cexC6unhealthy.instances.length = 4
    ∧ cexC6unhealthy.maxSize = 3
    ∧ (cexC6unhealthy.instances.filter (fun i =>
        cexC6unhealthy.get_instance_status i == "LifecycleState:Terminating")).length = 1
    ∧ terminateIds (replace_old_instances cexC6unhealthy).actions = ["i1"] := by
  refine ⟨by decide, by decide, by decide, by decide, by decide⟩

/-! ## Completion and the retire step -/

/-- C5 (amended): With zero old instances, a non-empty suspended-process set,
and none of the earlier states firing (no overshoot, no capacity raise
pending, no launch awaited, every new instance ready), the invocation calls
resume-all exactly once and issues no other mutating action (the gate cannot
fire without old instances). -/
theorem resume_all_on_completion (g : AutoScalingGroup)
    (hold : InstanceList.old g g.instances = [])
    (hsusp : g.suspendedProcesses ≠ [])
    (hmax : g.instances.length ≤ g.maxSize)
    (hnotA : ¬(g.desiredCapacity < g.maxSize ∧ InstanceList.new g g.instances = []))
    (hdes : g.desiredCapacity ≤ g.instances.length)
    (hready : InstanceList.unready g (InstanceList.new g g.instances) = []) :
    (replace_old_instances g).actions = [MutatingCall.resumeProcesses none]
    ∧ (replace_old_instances g).crashed = false := by
  have hgate : gateActions g = [] := by
    unfold gateActions AutoScalingGroup.is_suspend_processes_required
    rw [hold]
    simp
  have hstep : stateMachineStep g =
      { actions := [MutatingCall.resumeProcesses none], crashed := false } := by
    unfold stateMachineStep
    rw [if_neg (by omega)]
    rw [if_neg (by
      simp only [Bool.and_eq_true, decide_eq_true_eq, List.isEmpty_iff]
      rintro ⟨ha, hb⟩
      exact hnotA ⟨ha, hb⟩)]
    rw [if_neg (by omega)]
    rw [if_neg (by
      simp only [Bool.or_eq_true, Bool.not_eq_true', List.isEmpty_iff]
      rw [hold, hready]
      simp [InstanceList.terminating])]
    rw [if_neg (by
      simp only [Bool.not_eq_true', List.isEmpty_iff]
      rw [hold]
      simp)]
    rw [if_pos (by
      simp only [Bool.not_eq_true', List.isEmpty_iff, List.isEmpty_eq_false]
      exact hsusp)]
  unfold replace_old_instances
  rw [hgate, hstep]
  exact ⟨rfl, rfl⟩

/-- A completed rollout: one new ready instance, launch still suspended. -/
def completedGroup : AutoScalingGroup :=
  { autoScalingGroupName := "g", maxSize := 1, desiredCapacity := 1,
    launchConfigurationName := "lc2",
    instances := [mkInst "n1" "lc2" "InService" "Healthy"],
    tags := [{ key := "InstanceReplacement", value := "" }],
    suspendedProcesses := [{ processName := "Launch" }],
    targetHealth := [], instanceHealth := [] }

theorem resume_all_on_completion_witness :
    (InstanceList.old completedGroup completedGroup.instances = []
      ∧ completedGroup.suspendedProcesses ≠ []
      ∧ completedGroup.instances.length ≤ completedGroup.maxSize
      ∧ ¬(completedGroup.desiredCapacity < completedGroup.maxSize
          ∧ InstanceList.new completedGroup completedGroup.instances = [])
      ∧ completedGroup.desiredCapacity ≤ completedGroup.instances.length
      ∧ InstanceList.unready completedGroup
          (InstanceList.new completedGroup completedGroup.instances) = [])
    ∧ ((replace_old_instances completedGroup).actions
        = [MutatingCall.resumeProcesses none]
      ∧ (replace_old_instances completedGroup).crashed = false) :=
  ⟨⟨by decide, by decide, by decide, by decide, by decide, by decide⟩,
    resume_all_on_completion completedGroup
      (by decide) (by decide) (by decide) (by decide) (by decide) (by decide)⟩

/-- A managed group with no instances, desired 0 < max 1, and a suspended
process: zero old instances and a non-empty suspended set, yet the invocation
raises desired capacity instead of resuming. -/
def cexEmptyCompletion : AutoScalingGroup :=
  { autoScalingGroupName := "g", maxSize := 1, desiredCapacity := 0,
    launchConfigurationName := "lc2", instances := [],
    tags := [{ key := "InstanceReplacement", value := "" }],
    suspendedProcesses := [{ processName := "Launch" }],
    targetHealth := [], instanceHealth := [] }

/-- C5 counterexample: a managed snapshot with zero old instances and a
non-empty suspended-process set whose invocation issues a desired-capacity
update and no resume-all, refuting the claim as universally stated. -/
theorem capacity_raise_despite_completion_premises :
    cexEmptyCompletion.is_managed = true
    ∧ InstanceList.old cexEmptyCompletion cexEmptyCompletion.instances = []
    ∧ cexEmptyCompletion.suspendedProcesses ≠ []
    ∧ (replace_old_instances cexEmptyCompletion).actions
        = [MutatingCall.increaseDesiredCapacity 1] := by
  refine ⟨by decide, by decide, by decide, by decide⟩

/-- A mid-rollout snapshot reaching state D with every old instance Ready:
two ready old instances, one ready new instance, all processes suspended. -/
def bugGroup : AutoScalingGroup :=
  { autoScalingGroupName := "g", maxSize := 3, desiredCapacity := 3,
    launchConfigurationName := "lc2",
    instances := [mkInst "a1" "lc1" "InService" "Healthy",
                  mkInst "a2" "lc1" "InService" "Healthy",
                  mkInst "n1" "lc2" "InService" "Healthy"],
    tags := [{ key := "InstanceReplacement", value := "" }],
    suspendedProcesses := [{ processName := "AlarmNotification" },
                           { processName := "AZRebalance" },
                           { processName := "Launch" },
                           { processName := "ScheduledActions" }],
    targetHealth := [], instanceHealth := [] }

/-- C1: On a managed snapshot satisfying the retire-step premises (every new
instance Ready, no old instance terminating, at least one old instance) with
no old-and-unready instance, the invocation crashes (`TypeError`: the source
assigns the whole `InstanceList` where an instance was intended) and marks no
instance unhealthy, instead of retiring the first old instance. -/
theorem retire_step_crashes_when_all_old_ready :
    bugGroup.is_managed = true
    ∧ InstanceList.unready bugGroup (InstanceList.new bugGroup bugGroup.instances) = []
    ∧ InstanceList.terminating bugGroup (InstanceList.old bugGroup bugGroup.instances) = []
    ∧ InstanceList.old bugGroup bugGroup.instances ≠ []
    ∧ InstanceList.unready bugGroup (InstanceList.old bugGroup bugGroup.instances) = []
    ∧ replace_old_instances bugGroup = { actions := [], crashed := true } := by
  refine ⟨by decide, by decide, by decide, by decide, by decide, by decide⟩
